/-
Verification of the entity-synchronization layer of a Fitbit companion app
for Home Assistant.  Host side (companion/HomeAssistantAPI) and device side
(app/index.js message handlers) are shallowly embedded: JavaScript strings
become Lean `String`, `undefined`-able parameters become `Option`, the
fetch/response cycle becomes an explicit response argument, and `sendData`
emissions become returned message values.
-/
import Mathlib

namespace HAFit

/-! ### JavaScript string primitives

The source manipulates entity ids with `String.prototype.startsWith` and
`id.split(".")[0]`.  We embed them over the character list of the string:
`startsWith p` means the characters of `p` are a prefix, and `split(".")[0]`
is the longest dot-free prefix (the whole string when no dot occurs). -/

/-- JS `s.startsWith(p)`: the characters of `p` are a prefix of those of `s`. -/
def jsStartsWith (s p : String) : Bool :=
  p.data.isPrefixOf s.data

/-- JS `s.split(".")[0]`: the prefix of `s` up to (excluding) the first `'.'`,
or all of `s` when it contains no dot. -/
def jsSplitHead (s : String) : String :=
  ⟨s.data.takeWhile (fun c => c ≠ '.')⟩

/-- JS string truthiness of a possibly-`undefined` string: `undefined` and
`""` are falsy, every other string is truthy. -/
def jsTruthyStr : Option String → Bool
  | some s => s ≠ ""
  | none => false

/-- JS `a || b` where `a` is a possibly-`undefined` string: yields `a` when it
is defined and truthy (non-empty), otherwise `b`. -/
def jsOrString (a : Option String) (b : String) : String :=
  match a with
  | some s => if s = "" then b else s
  | none => b

/-! ### Static tables (companion/HomeAssistantAPI) -/

/-- `Groups`: domain → service group used in the command URL. -/
def Groups (domain : String) : Option String :=
  if domain = "switch" then some "switch"
  else if domain = "light" then some "light"
  else if domain = "group" then some "homeassistant"
  else if domain = "script" then some "script"
  else if domain = "automation" then some "automation"
  else if domain = "button" then some "button"
  else if domain = "cover" then some "cover"
  else none

/-- `NextStateOverrides`: domain → fixed action that replaces the caller's
requested action (`script: "turn_on"`, `automation: "trigger"`,
`button: "press"`). -/
def NextStateOverrides (domain : String) : Option String :=
  if domain = "script" then some "turn_on"
  else if domain = "automation" then some "trigger"
  else if domain = "button" then some "press"
  else none

/-- `ForcedStates`: action → terminal state assumed under force mode. -/
def ForcedStates (action : String) : Option String :=
  if action = "turn_on" then some "on"
  else if action = "turn_off" then some "off"
  else if action = "close_cover" then some "closed"
  else if action = "open_cover" then some "open"
  else none

/-! ### Configuration object -/

/-- The mutable state of a `HomeAssistantAPI` object: `url`, `port`, `token`,
`force`.  Every assignment in the source stores a defined value (the
constructor stores strings and `false`; each setter replaces `undefined` by a
default), so the fields are plain `String`/`Bool`. -/
structure HomeAssistantAPI where
  url : String
  port : String
  token : String
  force : Bool
  deriving DecidableEq, Repr

/-- The constructor `HomeAssistantAPI()`: `url = ""`, `port = ""`,
`token = ""`, `force = false`. -/
def HomeAssistantAPI.new : HomeAssistantAPI :=
  { url := "", port := "", token := "", force := false }

/-- `isValid()`: all of url, port, token defined and non-empty.  The
`!== undefined` conjuncts are identically true here because every assignment
in the source stores a defined value. -/
def HomeAssistantAPI.isValid (self : HomeAssistantAPI) : Bool :=
  self.url ≠ "" && self.port ≠ "" && self.token ≠ ""

/-- `changeUrl(url)`: store `url` when defined, else the default
`'127.0.0.1'`. -/
def HomeAssistantAPI.changeUrl (self : HomeAssistantAPI) (url : Option String) :
    HomeAssistantAPI :=
  match url with
  | some u => { self with url := u }
  | none => { self with url := "127.0.0.1" }

/-- `changePort(port)`: store `port` when defined, else the default
`'8123'`. -/
def HomeAssistantAPI.changePort (self : HomeAssistantAPI) (port : Option String) :
    HomeAssistantAPI :=
  match port with
  | some p => { self with port := p }
  | none => { self with port := "8123" }

/-- `changeToken(token)`: store `token` when defined, else the default
`''`. -/
def HomeAssistantAPI.changeToken (self : HomeAssistantAPI) (token : Option String) :
    HomeAssistantAPI :=
  match token with
  | some t => { self with token := t }
  | none => { self with token := "" }

/-- `changeForce(force)`: store `force` when defined, else the default
`true`. -/
def HomeAssistantAPI.changeForce (self : HomeAssistantAPI) (force : Option Bool) :
    HomeAssistantAPI :=
  match force with
  | some f => { self with force := f }
  | none => { self with force := true }

/-- `setup(url, port, token, force)`: applies the four setters in order. -/
def HomeAssistantAPI.setup (self : HomeAssistantAPI)
    (url port token : Option String) (force : Option Bool) : HomeAssistantAPI :=
  (((self.changeUrl url).changePort port).changeToken token).changeForce force

/-- `address()`: `url + ':' + port`. -/
def HomeAssistantAPI.address (self : HomeAssistantAPI) : String :=
  self.url ++ ":" ++ self.port

/-- `isExecutable(entity)`: false when the id starts with none of
`"script"`, `"automation"`, `"button"`; true otherwise. -/
def isExecutable (entity : String) : Bool :=
  if !(jsStartsWith entity "script") && !(jsStartsWith entity "automation")
      && !(jsStartsWith entity "button") then
    false
  else
    true

/-! ### Gateway operations

Each `async` operation splits into the HTTP request it attempts (`none` when
the configuration guard suppresses it) and the protocol messages it emits for
a given response.  Responses are explicit arguments because the network is
external. -/

/-- An HTTP request issued through `fetch`: URL, method, optional body
(the JSON-serialized `{entity_id}` payload is represented by the entity id). -/
structure HttpRequest where
  url : String
  method : String
  body : Option String
  deriving DecidableEq, Repr

/-- A `{key: "change", id, state}` message sent with `sendData`. -/
structure ChangeMsg where
  id : String
  state : String
  deriving DecidableEq, Repr

/-- One element of the JSON array returned by a service call. -/
structure EntityState where
  entity_id : String
  state : String
  deriving DecidableEq, Repr

/-- Outcome of the `fetch` in `changeEntity`: a 2xx response with parsed JSON
array `data`, a non-2xx status, or a thrown network/parse error. -/
inductive ServiceResponse where
  | ok (data : List EntityState)
  | httpError (status : Nat)
  | networkError
  deriving DecidableEq, Repr

/-- Modelled from the spec: `isEmpty` from `common/utils` (file not in the
sources); read-back mode "parses the response body as a list of affected
entities", so emptiness of that list. -/
def isEmpty (data : List EntityState) : Bool :=
  data.isEmpty

/-- The action actually sent by `changeEntity`:
`NextStateOverrides[domain] || state` with `domain = entity.split(".")[0]`. -/
def changeEntitySentAction (entity state : String) : String :=
  jsOrString (NextStateOverrides (jsSplitHead entity)) state

/-- The request `changeEntity(entity, state)` attempts:
`POST {address}/api/services/{group}/{action}` with body `{entity_id}`;
`none` when `isValid()` fails.  An undefined group renders as the string
`"undefined"` in the template literal. -/
def changeEntityRequest (self : HomeAssistantAPI) (entity state : String) :
    Option HttpRequest :=
  if self.isValid then
    some { url := self.address ++ "/api/services/"
             ++ (Groups (jsSplitHead entity)).getD "undefined" ++ "/"
             ++ changeEntitySentAction entity state,
           method := "POST",
           body := some entity }
  else
    none

/-- The `data.forEach` loop of read-back mode: for each element whose
`entity_id` matches the target, build the change message and send it unless
the element's id is executable. -/
def readBackEmits (entity : String) : List EntityState → List ChangeMsg
  | [] => []
  | el :: rest =>
    (if el.entity_id = entity then
       (if !(isExecutable el.entity_id) then
          [{ id := el.entity_id, state := el.state }]
        else [])
     else []) ++ readBackEmits entity rest

/-- The `"change"` messages `changeEntity(entity, state)` emits for a given
response.  Invalid configuration or a non-ok response emits nothing.  On
success, force mode emits the forced state (`ForcedStates[sent] || sent`)
once unless the entity is executable; read-back mode runs the `forEach`
loop over the non-empty response array. -/
def changeEntityEmits (self : HomeAssistantAPI) (entity state : String)
    (resp : ServiceResponse) : List ChangeMsg :=
  if self.isValid then
    let sent := changeEntitySentAction entity state
    match resp with
    | .ok data =>
      if self.force then
        if !(isExecutable entity) then
          [{ id := entity, state := jsOrString (ForcedStates sent) sent }]
        else []
      else if !(isEmpty data) then
        readBackEmits entity data
      else []
    | .httpError _ => []
    | .networkError => []
  else
    []

/-- The `attributes` object of a state response; only `friendly_name` is
read by the source. -/
structure Attributes where
  friendly_name : Option String
  deriving DecidableEq, Repr

/-- The JSON body of `GET /api/states/{entity}`. -/
structure StateResponse where
  entity_id : String
  state : String
  attributes : Option Attributes
  deriving DecidableEq, Repr

/-- Outcome of the `fetch` in `fetchEntity`. -/
inductive FetchResponse where
  | ok (data : StateResponse)
  | httpError (status : Nat)
  | networkError
  deriving DecidableEq, Repr

/-- A `{key: "add", id, name, state, type}` message. -/
structure AddMsg where
  id : String
  name : String
  state : String
  type : String
  deriving DecidableEq, Repr

/-- The request `fetchEntity(entity)` attempts:
`GET {address}/api/states/{entity}`; `none` when `isValid()` fails. -/
def fetchEntityRequest (self : HomeAssistantAPI) (entity : String) :
    Option HttpRequest :=
  if self.isValid then
    some { url := self.address ++ "/api/states/" ++ entity,
           method := "GET", body := none }
  else
    none

/-- The `"add"` message `fetchEntity` emits for a given response: `name`
defaults to the entity id and is replaced by `attributes.friendly_name` when
that is present and truthy; `state` is replaced by `"exe"` when the id is
executable; `type` is the domain prefix.  Failures and invalid configuration
emit nothing. -/
def fetchEntityEmits (self : HomeAssistantAPI) (res : FetchResponse) :
    Option AddMsg :=
  if self.isValid then
    match res with
    | .ok data =>
      some { id := data.entity_id,
             name :=
               match data.attributes with
               | some attrs =>
                 if jsTruthyStr attrs.friendly_name then attrs.friendly_name.getD ""
                 else data.entity_id
               | none => data.entity_id,
             state := if isExecutable data.entity_id then "exe" else data.state,
             type := jsSplitHead data.entity_id }
    | .httpError _ => none
    | .networkError => none
  else
    none

/-- Outcome of the `fetch` in `fetchApiStatus`: a response whose JSON parsed
(carrying the status code and `location_name`), or a thrown error. -/
inductive ConfigResponse where
  | status (code : Nat) (locationName : String)
  | networkError
  deriving DecidableEq, Repr

/-- A `{key: "api", ...}` message: `value: "ok"` with the location name on
status 200, an error text carrying the status otherwise, or the connection
error text when the fetch threw. -/
inductive ApiMsg where
  | apiOk (name : String)
  | apiError (status : Nat)
  | apiConnectionError
  deriving DecidableEq, Repr

/-- The request `fetchApiStatus()` attempts: `GET {address}/api/config`;
`none` when `isValid()` fails. -/
def fetchApiStatusRequest (self : HomeAssistantAPI) : Option HttpRequest :=
  if self.isValid then
    some { url := self.address ++ "/api/config", method := "GET", body := none }
  else
    none

/-- The `"api"` message `fetchApiStatus` emits for a given response; invalid
configuration emits nothing. -/
def fetchApiStatusEmits (self : HomeAssistantAPI) (res : ConfigResponse) :
    Option ApiMsg :=
  if self.isValid then
    match res with
    | .status code name =>
      if code = 200 then some (.apiOk name) else some (.apiError code)
    | .networkError => some .apiConnectionError
  else
    none

/-! ### Device-side Store (app/index.js) -/

/-- An element of the `Entities` list: `{id, name, state}`. -/
structure EntityRec where
  id : String
  name : String
  state : String
  deriving DecidableEq, Repr

/-- An element of the persisted `settings.entities` list: `{name}`. -/
structure SettingsEntity where
  name : String
  deriving DecidableEq, Repr

/-- An element of the `Categories` list.  The `"add"` handler pushes the
object `{id: evt.data.id}`; `configureTile` pushes the category string
`info.category` (the domain prefix). -/
inductive CatEntry where
  | idObj (id : String)
  | label (category : String)
  deriving DecidableEq, Repr

/-- The device-side mutable state touched by the message handler: the
`Entities` and `Categories` lists, the persisted `settings` record, the
`Available` flag and the address text. -/
structure StoreState where
  entities : List EntityRec
  settingsEntities : List SettingsEntity
  categories : List CatEntry
  settingsUrl : String
  settingsPort : String
  settingsToken : String
  settingsForce : Bool
  available : Bool
  addressText : String
  deriving DecidableEq, Repr

/-- An incoming `evt.data` on the peer socket, by `key`. -/
inductive StoreEvent where
  | clear
  | add (id name state : String)
  | change (id state : String)
  | api (value name : String)
  | url (value : String)
  | port (value : String)
  | token (value : String)
  | force (value : Bool)
  deriving DecidableEq, Repr

/-- A message the store sends back with `sendData` (the configuration echo
branches). -/
inductive StoreOut where
  | echoUrl (value : String)
  | echoPort (value : String)
  | echoToken (value : String)
  | echoForce (value : Bool)
  deriving DecidableEq, Repr

/-- The `messaging.peerSocket.onmessage` handler: the new store state and the
messages echoed back.  `"clear"` empties `Entities` and `settings.entities`;
`"add"` appends to `Entities`, `settings.entities` (as `{name: id}`) and
pushes `{id: evt.data.id}` onto `Categories`; `"change"` updates the state of
every entity whose id matches; `"api"` sets the availability flag and address
text; the configuration keys store and echo the value. -/
def onmessage (s : StoreState) (e : StoreEvent) : StoreState × List StoreOut :=
  match e with
  | .clear =>
    ({ s with entities := [], settingsEntities := [] }, [])
  | .add id name state =>
    ({ s with entities := s.entities ++ [{ id := id, name := name, state := state }],
              settingsEntities := s.settingsEntities ++ [{ name := id }],
              categories := s.categories ++ [.idObj id] }, [])
  | .change id state =>
    ({ s with entities :=
         s.entities.map (fun en => if en.id = id then { en with state := state } else en) },
     [])
  | .api value name =>
    if value = "ok" then
      ({ s with available := true, addressText := name }, [])
    else
      ({ s with available := false, addressText := value }, [])
  | .url value => ({ s with settingsUrl := value }, [.echoUrl value])
  | .port value => ({ s with settingsPort := value }, [.echoPort value])
  | .token value => ({ s with settingsToken := value }, [.echoToken value])
  | .force value => ({ s with settingsForce := value }, [.echoForce value])

/-- The membership scan in `setupList`'s `configureTile`: walk `Categories`
comparing each element to the category string with strict equality; an
`{id: ...}` object is never strictly equal to a string, so only `label`
entries can match. -/
def categoryExists (cats : List CatEntry) (category : String) : Bool :=
  cats.any (fun c =>
    match c with
    | .label l => l = category
    | .idObj _ => false)

/-- The `Categories` mutation in `configureTile`: when the scan finds no
match, push the category string; otherwise leave the list unchanged. -/
def configureTileCategories (cats : List CatEntry) (category : String) :
    List CatEntry :=
  if categoryExists cats category then cats else cats ++ [.label category]

/-- The domain a `Categories` entry refers to: a `label` entry is already a
domain string; an `{id}` object carries a full entity id whose domain is
`id.split(".")[0]`. -/
def catDomain : CatEntry → String
  | .idObj i => jsSplitHead i
  | .label l => l

/-! ### Concrete fixtures for witnesses -/

/-- A valid configuration with the force flag set. -/
def sampleConfig : HomeAssistantAPI :=
  { url := "1.2.3.4", port := "8123", token := "tok", force := true }

/-- A valid configuration in read-back mode. -/
def sampleConfigReadBack : HomeAssistantAPI :=
  { url := "1.2.3.4", port := "8123", token := "tok", force := false }

/-- The device store at startup: empty lists, unavailable. -/
def storeEmpty : StoreState :=
  { entities := [], settingsEntities := [], categories := [],
    settingsUrl := "localhost", settingsPort := "8123", settingsToken := "",
    settingsForce := true, available := false, addressText := "unavailable" }

/-! ### Helper lemmas -/

/-- A string starts with its own dot-free head: if `split(".")[0]` yields
`d` then `startsWith(d)` holds. -/
theorem jsStartsWith_of_splitHead (s d : String) (h : jsSplitHead s = d) :
    jsStartsWith s d = true := by
  have hd : d.data = s.data.takeWhile (fun c => c ≠ '.') := by
    simpa [jsSplitHead] using (congrArg String.data h).symm
  unfold jsStartsWith
  rw [hd, List.isPrefixOf_iff_prefix]
  exact List.takeWhile_prefix _

/-- On the `ForcedStates` table, JS `table[a] || a` agrees with the lookup
with default, because every table value is non-empty. -/
theorem jsOrString_ForcedStates (sent : String) :
    jsOrString (ForcedStates sent) sent = (ForcedStates sent).getD sent := by
  unfold ForcedStates
  split_ifs <;> simp [jsOrString]

/-- The `forEach` loop of read-back mode emits exactly the matching,
non-executable elements, in order, with their server-reported states. -/
theorem readBackEmits_eq_filter (entity : String) (data : List EntityState) :
    readBackEmits entity data =
      (data.filter
        (fun el => el.entity_id == entity && !(isExecutable el.entity_id))).map
        (fun el => { id := el.entity_id, state := el.state }) := by
  induction data with
  | nil => rfl
  | cons el rest ih =>
    by_cases h1 : el.entity_id = entity
    · subst h1
      by_cases h2 : isExecutable el.entity_id <;>
        simp [readBackEmits, List.filter_cons, h2, ih]
    · simp [readBackEmits, List.filter_cons, h1, ih]

/-- The `configureTile` membership scan succeeds exactly when an equal label
entry is present; `{id}` objects never match the strict string equality. -/
theorem categoryExists_iff (cats : List CatEntry) (cat : String) :
    categoryExists cats cat = true ↔ CatEntry.label cat ∈ cats := by
  unfold categoryExists
  rw [List.any_eq_true]
  constructor
  · rintro ⟨c, hc, hm⟩
    cases c with
    | idObj i => simp at hm
    | label l =>
      simp only [decide_eq_true_eq] at hm
      subst hm; exact hc
  · intro hc
    exact ⟨.label cat, hc, by simp⟩

/-! ### Claim theorems -/

/-- C1 (counterexample): `changeEntity("script.foo", "turn_on")` sends the
action `"turn_on"`, not `"activate"`: the override table entry for the
script domain is `"turn_on"`. -/
theorem C1_script_counterexample :
    changeEntitySentAction "script.foo" "turn_on" = "turn_on" ∧
    changeEntitySentAction "script.foo" "turn_on" ≠ "activate" ∧
    changeEntityRequest sampleConfig "script.foo" "turn_on" =
      some { url := "1.2.3.4:8123/api/services/script/turn_on",
             method := "POST", body := some "script.foo" } := by
  refine ⟨rfl, by decide, rfl⟩

/-- C1 (amended): for every requested action, `changeEntity` issues the
command with the fixed override action of the domain — `"turn_on"` for
scripts, `"trigger"` for automations, `"press"` for buttons — never
consulting the caller-supplied action for these domains; in particular a
script command always goes to `.../services/script/turn_on`. -/
theorem C1_domain_overrides (entity a : String) :
    (jsSplitHead entity = "script" → changeEntitySentAction entity a = "turn_on") ∧
    (jsSplitHead entity = "automation" → changeEntitySentAction entity a = "trigger") ∧
    (jsSplitHead entity = "button" → changeEntitySentAction entity a = "press") ∧
    (∀ self : HomeAssistantAPI, self.isValid = true → jsSplitHead entity = "script" →
      changeEntityRequest self entity a =
        some { url := self.address ++ "/api/services/script/turn_on",
               method := "POST", body := some entity }) := by
  refine ⟨?_, ?_, ?_, ?_⟩
  · intro hd; unfold changeEntitySentAction; rw [hd]; rfl
  · intro hd; unfold changeEntitySentAction; rw [hd]; rfl
  · intro hd; unfold changeEntitySentAction; rw [hd]; rfl
  · intro self hv hd
    unfold changeEntityRequest changeEntitySentAction
    rw [hd, hv]
    simp [Groups, NextStateOverrides, jsOrString, String.append_assoc]

/-- C1 (witness): instantiation at `"script.foo"`, `"automation.bar"`,
`"button.baz"` with requested action `"turn_on"` and the sample valid
configuration. -/
theorem C1_domain_overrides_witness :
    changeEntitySentAction "script.foo" "turn_on" = "turn_on" ∧
    changeEntitySentAction "automation.bar" "turn_on" = "trigger" ∧
    changeEntitySentAction "button.baz" "turn_on" = "press" ∧
    changeEntityRequest sampleConfig "script.foo" "turn_on" =
      some { url := sampleConfig.address ++ "/api/services/script/turn_on",
             method := "POST", body := some "script.foo" } :=
  ⟨(C1_domain_overrides "script.foo" "turn_on").1 (by decide),
   (C1_domain_overrides "automation.bar" "turn_on").2.1 (by decide),
   (C1_domain_overrides "button.baz" "turn_on").2.2.1 (by decide),
   (C1_domain_overrides "script.foo" "turn_on").2.2.2 sampleConfig (by decide) (by decide)⟩

/-- C2: `isValid()` holds exactly when url, port and token are all
non-empty, and an invalid configuration suppresses every Gateway operation:
no request is attempted and no message is emitted by `fetchEntity`,
`fetchApiStatus` or `changeEntity`. -/
theorem C2_invalid_config_noop (self : HomeAssistantAPI) :
    (self.isValid = true ↔ (self.url ≠ "" ∧ self.port ≠ "" ∧ self.token ≠ "")) ∧
    (self.isValid = false →
      (∀ entity, fetchEntityRequest self entity = none) ∧
      fetchApiStatusRequest self = none ∧
      (∀ entity a, changeEntityRequest self entity a = none) ∧
      (∀ res, fetchEntityEmits self res = none) ∧
      (∀ res, fetchApiStatusEmits self res = none) ∧
      (∀ entity a resp, changeEntityEmits self entity a resp = [])) := by
  constructor
  · simp [HomeAssistantAPI.isValid, and_assoc]
  · intro h
    refine ⟨?_, ?_, ?_, ?_, ?_, ?_⟩ <;>
      intros <;>
      simp [fetchEntityRequest, fetchApiStatusRequest, changeEntityRequest,
        fetchEntityEmits, fetchApiStatusEmits, changeEntityEmits, h]

/-- C2 (witness): a freshly constructed configuration is invalid (its token
is empty) and all Gateway operations are suppressed on it; conversely the
sample configuration with all fields non-empty is valid. -/
theorem C2_invalid_config_noop_witness :
    HomeAssistantAPI.new.isValid = false ∧
    fetchEntityRequest HomeAssistantAPI.new "light.a" = none ∧
    fetchApiStatusRequest HomeAssistantAPI.new = none ∧
    changeEntityRequest HomeAssistantAPI.new "light.a" "turn_on" = none ∧
    fetchEntityEmits HomeAssistantAPI.new
      (.ok { entity_id := "light.a", state := "on", attributes := none }) = none ∧
    fetchApiStatusEmits HomeAssistantAPI.new (.status 200 "Home") = none ∧
    changeEntityEmits HomeAssistantAPI.new "light.a" "turn_on" (.ok []) = [] ∧
    sampleConfig.isValid = true := by
  have h := (C2_invalid_config_noop HomeAssistantAPI.new).2 (by decide)
  refine ⟨by decide, h.1 "light.a", h.2.1, h.2.2.1 "light.a" "turn_on",
    h.2.2.2.1 _, h.2.2.2.2.1 _, h.2.2.2.2.2 "light.a" "turn_on" (.ok []), ?_⟩
  exact (C2_invalid_config_noop sampleConfig).1.mpr (by decide)

/-- C3: on a successful response in force mode, `changeEntity` on a
non-executable entity emits exactly one change message, whose state is the
Forced-State table entry for the sent action, the sent action itself when
the table has no entry. -/
theorem C3_force_mode_emit (self : HomeAssistantAPI) (entity a : String)
    (data : List EntityState) (hv : self.isValid = true) (hf : self.force = true)
    (hx : isExecutable entity = false) :
    changeEntityEmits self entity a (.ok data) =
      [{ id := entity,
         state := (ForcedStates (changeEntitySentAction entity a)).getD
           (changeEntitySentAction entity a) }] := by
  simp [changeEntityEmits, hv, hf, hx, jsOrString_ForcedStates]

/-- C3 (witness): `changeEntity("switch.lamp", "turn_on")` with force mode
emits `{key: "change", id: "switch.lamp", state: "on"}`. -/
theorem C3_force_mode_emit_witness :
    changeEntityEmits sampleConfig "switch.lamp" "turn_on" (.ok []) =
      [{ id := "switch.lamp", state := "on" }] := by
  rw [C3_force_mode_emit sampleConfig "switch.lamp" "turn_on" []
    (by decide) (by decide) (by decide)]
  decide

/-- C4: on a successful response in read-back mode, `changeEntity` emits one
change message per response element whose id matches the target (with the
server-reported state, suppressed for executables), and none for
non-matching elements. -/
theorem C4_readback_emit (self : HomeAssistantAPI) (entity a : String)
    (data : List EntityState) (hv : self.isValid = true) (hf : self.force = false) :
    changeEntityEmits self entity a (.ok data) =
      (data.filter
        (fun el => el.entity_id == entity && !(isExecutable el.entity_id))).map
        (fun el => { id := el.entity_id, state := el.state }) := by
  rcases data with _ | ⟨el, rest⟩
  · simp [changeEntityEmits, hv, hf, isEmpty]
  · simp only [changeEntityEmits, hv, hf, isEmpty]
    rw [readBackEmits_eq_filter]
    simp

/-- C4 (witness): `changeEntity("cover.blinds", "open_cover")` in read-back
mode with response `[{entity_id: "cover.blinds", state: "open"}]` emits the
matching change message, and with a non-matching response element emits
nothing. -/
theorem C4_readback_emit_witness :
    changeEntityEmits sampleConfigReadBack "cover.blinds" "open_cover"
      (.ok [{ entity_id := "cover.blinds", state := "open" }]) =
      [{ id := "cover.blinds", state := "open" }] ∧
    changeEntityEmits sampleConfigReadBack "cover.blinds" "open_cover"
      (.ok [{ entity_id := "cover.door", state := "open" }]) = [] := by
  constructor
  · rw [C4_readback_emit sampleConfigReadBack "cover.blinds" "open_cover"
      [{ entity_id := "cover.blinds", state := "open" }] (by decide) rfl]
    decide
  · rw [C4_readback_emit sampleConfigReadBack "cover.blinds" "open_cover"
      [{ entity_id := "cover.door", state := "open" }] (by decide) rfl]
    decide

/-- C5: ids whose domain is script, automation or button are executable;
`isExecutable` holds exactly when the id begins with `"script"`,
`"automation"` or `"button"`; and `changeEntity` never emits a change
message for an executable entity in force mode. -/
theorem C5_executable_no_emit (id : String) :
    ((jsSplitHead id = "script" ∨ jsSplitHead id = "automation" ∨
        jsSplitHead id = "button") → isExecutable id = true) ∧
    (isExecutable id = true ↔
      (jsStartsWith id "script" = true ∨ jsStartsWith id "automation" = true ∨
        jsStartsWith id "button" = true)) ∧
    (∀ (self : HomeAssistantAPI) (a : String) (resp : ServiceResponse),
      isExecutable id = true → self.force = true →
      changeEntityEmits self id a resp = []) := by
  refine ⟨?_, ?_, ?_⟩
  · intro hd
    unfold isExecutable
    rcases hd with hd | hd | hd <;>
      rw [jsStartsWith_of_splitHead id _ hd] <;> simp
  · unfold isExecutable
    cases h1 : jsStartsWith id "script" <;>
      cases h2 : jsStartsWith id "automation" <;>
      cases h3 : jsStartsWith id "button" <;> simp
  · intro self a resp hx hf
    unfold changeEntityEmits
    cases hv : self.isValid
    · simp
    · cases resp <;> simp [hf, hx]

/-- C5 (witness): `"script.foo"` has domain `"script"`, is executable, and a
force-mode `changeEntity` on it emits nothing even on a successful
response. -/
theorem C5_executable_no_emit_witness :
    isExecutable "script.foo" = true ∧
    (isExecutable "script.foo" = true ↔
      (jsStartsWith "script.foo" "script" = true ∨
        jsStartsWith "script.foo" "automation" = true ∨
        jsStartsWith "script.foo" "button" = true)) ∧
    changeEntityEmits sampleConfig "script.foo" "turn_on"
      (.ok [{ entity_id := "script.foo", state := "on" }]) = [] :=
  ⟨(C5_executable_no_emit "script.foo").1 (Or.inl (by decide)),
   (C5_executable_no_emit "script.foo").2.1,
   (C5_executable_no_emit "script.foo").2.2 sampleConfig "turn_on"
     (.ok [{ entity_id := "script.foo", state := "on" }]) (by decide) rfl⟩

/-- C6: `setup(undefined, undefined, undefined, undefined)` yields exactly
the documented defaults regardless of prior state, and each setter stores a
defined argument and resets to its field default on `undefined`. -/
theorem C6_setup_defaults (self : HomeAssistantAPI) :
    (self.setup none none none none =
      { url := "127.0.0.1", port := "8123", token := "", force := true }) ∧
    (∀ v, self.changeUrl (some v) = { self with url := v }) ∧
    (self.changeUrl none = { self with url := "127.0.0.1" }) ∧
    (∀ v, self.changePort (some v) = { self with port := v }) ∧
    (self.changePort none = { self with port := "8123" }) ∧
    (∀ v, self.changeToken (some v) = { self with token := v }) ∧
    (self.changeToken none = { self with token := "" }) ∧
    (∀ b, self.changeForce (some b) = { self with force := b }) ∧
    (self.changeForce none = { self with force := true }) :=
  ⟨rfl, fun _ => rfl, rfl, fun _ => rfl, rfl, fun _ => rfl, rfl, fun _ => rfl, rfl⟩

/-- C7 (counterexample): a freshly constructed configuration holds
`url = ""`, `port = ""`, `token = ""`, `force = false` — not the documented
defaults. -/
theorem C7_new_counterexample :
    HomeAssistantAPI.new = { url := "", port := "", token := "", force := false } ∧
    ¬(HomeAssistantAPI.new.url = "127.0.0.1" ∧ HomeAssistantAPI.new.port = "8123" ∧
      HomeAssistantAPI.new.token = "" ∧ HomeAssistantAPI.new.force = true) :=
  ⟨rfl, by decide⟩

/-- C7 (amended): a newly created configuration object holds empty url,
port and token and `force = false` — an invalid configuration; the
documented defaults arise only after `setup` is called with undefined
arguments. -/
theorem C7_new_state :
    HomeAssistantAPI.new.url = "" ∧ HomeAssistantAPI.new.port = "" ∧
    HomeAssistantAPI.new.token = "" ∧ HomeAssistantAPI.new.force = false ∧
    HomeAssistantAPI.new.isValid = false ∧
    HomeAssistantAPI.new.setup none none none none =
      { url := "127.0.0.1", port := "8123", token := "", force := true } := by
  decide

/-- C8 (counterexample): on the response for `"scripts.x"` — whose domain
`"scripts"` is none of script, automation, button — with attributes carrying
`friendly_name: ""`, the emitted record still has the executable sentinel
state `"exe"` (because the executable test is a prefix check on the id) and
falls back to the id as name (because the friendly name is present but
empty). -/
theorem C8_counterexample :
    fetchEntityEmits sampleConfig
      (.ok { entity_id := "scripts.x", state := "idle",
             attributes := some { friendly_name := some "" } }) =
      some { id := "scripts.x", name := "scripts.x", state := "exe",
             type := "scripts" } ∧
    jsSplitHead "scripts.x" ≠ "script" ∧
    jsSplitHead "scripts.x" ≠ "automation" ∧
    jsSplitHead "scripts.x" ≠ "button" ∧
    ("exe" : String) ≠ "idle" ∧ ("scripts.x" : String) ≠ "" := by
  decide

/-- C8 (amended): on a successful `fetchEntity` response the emitted
record's name equals the friendly name when the response carries a non-empty
`attributes.friendly_name` and the entity id otherwise, and its state is the
sentinel `"exe"` exactly on the executable prefix test — the id beginning
with `"script"`, `"automation"` or `"button"` — otherwise the
server-reported state. -/
theorem C8_add_record (self : HomeAssistantAPI) (d : StateResponse)
    (hv : self.isValid = true) :
    fetchEntityEmits self (.ok d) =
      some { id := d.entity_id,
             name :=
               if (d.attributes.bind Attributes.friendly_name).getD "" = "" then
                 d.entity_id
               else (d.attributes.bind Attributes.friendly_name).getD "",
             state :=
               if jsStartsWith d.entity_id "script" ||
                   jsStartsWith d.entity_id "automation" ||
                   jsStartsWith d.entity_id "button" then "exe"
               else d.state,
             type := jsSplitHead d.entity_id } := by
  have hexe : isExecutable d.entity_id =
      (jsStartsWith d.entity_id "script" || jsStartsWith d.entity_id "automation"
        || jsStartsWith d.entity_id "button") := by
    unfold isExecutable
    cases jsStartsWith d.entity_id "script" <;>
      cases jsStartsWith d.entity_id "automation" <;>
      cases jsStartsWith d.entity_id "button" <;> rfl
  unfold fetchEntityEmits
  rcases d with ⟨eid, st, attrs⟩
  rcases attrs with _ | ⟨fn⟩
  · simp_all [jsTruthyStr]
  · rcases fn with _ | f
    · simp_all [jsTruthyStr]
    · by_cases hf : f = "" <;> simp_all [jsTruthyStr]

/-- C8 (witness): a switch entity with friendly name `"Lamp"` yields an add
record named `"Lamp"` with the server state; instantiated through the
amended theorem at the sample configuration. -/
theorem C8_add_record_witness :
    fetchEntityEmits sampleConfig
      (.ok { entity_id := "light.a", state := "on",
             attributes := some { friendly_name := some "Lamp" } }) =
      some { id := "light.a", name := "Lamp", state := "on", type := "light" } := by
  rw [C8_add_record sampleConfig
    { entity_id := "light.a", state := "on",
      attributes := some { friendly_name := some "Lamp" } } (by decide)]
  decide

/-- C9 (counterexample): two `"add"` events for `"light.a"` and `"light.b"`
leave the Categories list with two entries — the pushed `{id}` objects, not
domain prefixes — both referring to the domain `"light"`, so the list does
hold duplicate entries for the same domain prefix. -/
theorem C9_counterexample :
    ((onmessage (onmessage storeEmpty (.add "light.a" "A" "on")).1
        (.add "light.b" "B" "on")).1).categories =
      [.idObj "light.a", .idObj "light.b"] ∧
    ((onmessage (onmessage storeEmpty (.add "light.a" "A" "on")).1
        (.add "light.b" "B" "on")).1).categories.map catDomain =
      ["light", "light"] := by
  decide

/-- C9 (amended): an `"add"` event appends the entity record, its persisted
`{name: id}` record, and — unconditionally — an `{id}` object to the
Categories list; the linear membership scan lives in the tile-configuration
routine, which appends a category label only when no equal label entry is
present. -/
theorem C9_add_and_category_scan (s : StoreState) (id name state : String) :
    ((onmessage s (.add id name state)).1.entities =
      s.entities ++ [{ id := id, name := name, state := state }]) ∧
    ((onmessage s (.add id name state)).1.settingsEntities =
      s.settingsEntities ++ [{ name := id }]) ∧
    ((onmessage s (.add id name state)).1.categories =
      s.categories ++ [.idObj id]) ∧
    (∀ (cats : List CatEntry) (cat : String),
      (CatEntry.label cat ∈ cats → configureTileCategories cats cat = cats) ∧
      (CatEntry.label cat ∉ cats →
        configureTileCategories cats cat = cats ++ [.label cat])) := by
  refine ⟨rfl, rfl, rfl, ?_⟩
  intro cats cat
  constructor
  · intro h
    simp [configureTileCategories, (categoryExists_iff cats cat).mpr h]
  · intro h
    have hc : categoryExists cats cat = false := by
      cases hcc : categoryExists cats cat
      · rfl
      · exact absurd ((categoryExists_iff cats cat).mp hcc) h
    simp [configureTileCategories, hc]

/-- C9 (witness): the amended theorem instantiated on the empty store and on
concrete category lists with and without the `"light"` label. -/
theorem C9_add_and_category_scan_witness :
    (onmessage storeEmpty (.add "light.a" "A" "on")).1.entities =
      [{ id := "light.a", name := "A", state := "on" }] ∧
    configureTileCategories [] "light" = [.label "light"] ∧
    configureTileCategories [.label "light"] "light" = [.label "light"] := by
  have h := C9_add_and_category_scan storeEmpty "light.a" "A" "on"
  exact ⟨by simpa [storeEmpty] using h.1,
    (h.2.2.2 [] "light").2 (by simp),
    (h.2.2.2 [.label "light"] "light").1 (by simp)⟩

/-- C10: a `"clear"` event empties exactly the entity list and the persisted
entity list; the Categories list, the availability flag, the address text
and the rest of the settings are untouched and nothing is echoed back. -/
theorem C10_clear_frame (s : StoreState) :
    (onmessage s .clear).1.entities = [] ∧
    (onmessage s .clear).1.settingsEntities = [] ∧
    (onmessage s .clear).1.categories = s.categories ∧
    (onmessage s .clear).1.available = s.available ∧
    (onmessage s .clear).1.addressText = s.addressText ∧
    (onmessage s .clear).1.settingsUrl = s.settingsUrl ∧
    (onmessage s .clear).1.settingsPort = s.settingsPort ∧
    (onmessage s .clear).1.settingsToken = s.settingsToken ∧
    (onmessage s .clear).1.settingsForce = s.settingsForce ∧
    (onmessage s .clear).2 = [] :=
  ⟨rfl, rfl, rfl, rfl, rfl, rfl, rfl, rfl, rfl, rfl⟩

end HAFit
